import Mathlib

/-!
Shallow embedding of the SignGPT Crew Server (`app.py`).

The server's locally-implemented logic is: loading a vocabulary file at
startup, validating/normalizing token casing against that vocabulary, and
marshalling requests into an external crew pipeline.  Python strings are
`String` (with `String.toUpper` modelling `str.upper`), the raw JSON object
`english_words.json` is an association list `List (String × String)` (a
Python dict: keys iterate in insertion order and are pairwise distinct),
the environment variable `OPENAI_API_KEY` is an `Option String` (`none`
when unset), HTTP failures are an explicit error type, and the external
crew call is a parameter `crew` returning `Except String String`
(an exception message, or the stringified result).
-/

set_option autoImplicit false

namespace SignGPT

/-- `bool(os.getenv("OPENAI_API_KEY"))`: the key counts as configured when
the variable is set to a non-empty string (`bool("")` is false in Python). -/
def keyConfigured : Option String → Bool
  | none => false
  | some s => !(s == "")

/-! ### Dataset loading (app.py lines 30-36) -/

/-- `[asl_dataset_raw[word].upper() for word in asl_dataset_raw]`:
iterate the keys of the raw JSON object and uppercase the value found at
each key.  The dict subscript `asl_dataset_raw[word]` is `List.lookup`;
`getD ""` is unreachable when `word` really is a key of the dict. -/
def buildAslDataset (raw : List (String × String)) : List String :=
  (raw.map Prod.fst).map (fun word => ((raw.lookup word).getD "").toUpper)

/-- The `try/except FileNotFoundError` around the dataset load: `none`
models a missing `./data/english_words.json` (the `open` raising
`FileNotFoundError`), in which case the module raises `RuntimeError`
instead of starting. -/
def loadAslDataset : Option (List (String × String)) → Except String (List String)
  | some raw => Except.ok (buildAslDataset raw)
  | none => Except.error "ASL dataset file not found at ./data/english_words.json"

/-! ### /health (app.py lines 81-91) -/

structure HealthResponse where
  status : String
  message : String
  asl_dataset_size : Nat
deriving DecidableEq

/-- `health_check`: status `"healthy"` when the key is configured,
`"warning"` otherwise, plus the dataset size. -/
def health_check (env : Option String) (asl_dataset : List String) : HealthResponse :=
  let openai_key_configured := keyConfigured env
  { status := if openai_key_configured then "healthy" else "warning"
    message := if openai_key_configured then "Service is running"
               else "Service running but OPENAI_API_KEY not configured"
    asl_dataset_size := asl_dataset.length }

/-! ### /process-tokens (app.py lines 94-131) -/

/-- A Python exception as far as this endpoint can observe one: either a
`fastapi.HTTPException` (which subclasses `Exception`) or any other
exception, carried with its `str()`. -/
inductive PyExc where
  | http (status_code : Nat) (detail : String)
  | generic (msg : String)
deriving DecidableEq

/-- `str(e)`: starlette's `HTTPException.__str__` is
`f"\x7bself.status_code\x7d: \x7bself.detail\x7d"`; for other exceptions we
carry the message directly. -/
def pyExcStr : PyExc → String
  | PyExc.http code detail => toString code ++ ": " ++ detail
  | PyExc.generic msg => msg

/-- An HTTP error response produced by raising `HTTPException`. -/
structure HTTPError where
  status_code : Nat
  detail : String
deriving DecidableEq

/-- The body of the `try` block of `process_tokens`: validate the key,
validate that `words` is non-empty, then call the crew.  Each `raise`
inside the block produces a `PyExc`. -/
def processTokensTryBlock (env : Option String) (asl_dataset : List String)
    (crew : List String → List String → Except String String)
    (words : List String) : Except PyExc String :=
  if !(keyConfigured env) then
    Except.error (PyExc.http 500
      "OPENAI_API_KEY not configured. Please set it in your environment or .env file.")
  else if words == [] then
    Except.error (PyExc.http 400 "Words list cannot be empty")
  else
    match crew words asl_dataset with
    | Except.ok result => Except.ok result
    | Except.error msg => Except.error (PyExc.generic msg)

/-- `process_tokens`: the whole `try` block, wrapped by
`except Exception as e: raise HTTPException(500, f"Error processing tokens: \x7bstr(e)\x7d")`.
Since `HTTPException` subclasses `Exception`, the `raise HTTPException`
statements inside the `try` block are caught and re-wrapped here too. -/
def process_tokens (env : Option String) (asl_dataset : List String)
    (crew : List String → List String → Except String String)
    (words : List String) : Except HTTPError String :=
  match processTokensTryBlock env asl_dataset crew words with
  | Except.ok result => Except.ok result
  | Except.error e =>
      Except.error ⟨500, "Error processing tokens: " ++ pyExcStr e⟩

/-! ### /asl-dataset (app.py lines 134-141) -/

structure AslDatasetInfo where
  total_words : Nat
  sample_words : List String
  description : String
deriving DecidableEq

/-- `get_asl_dataset`: dataset size, the first 20 words
(`asl_dataset[:20]`), and a description. -/
def get_asl_dataset (asl_dataset : List String) : AslDatasetInfo :=
  { total_words := asl_dataset.length
    sample_words := asl_dataset.take 20
    description := "Available ASL vocabulary tokens" }

/-! ### /validate-tokens (app.py lines 144-172) -/

/-- One entry of `validation_results`. -/
structure TokenValidation where
  valid : Bool
  normalized : Option String
deriving DecidableEq

/-- Summary block of the `/validate-tokens` response. -/
structure ValidateSummary where
  total_tokens : Nat
  valid_count : Nat
  invalid_count : Nat
  valid_tokens : List String
  invalid_tokens : List String
deriving DecidableEq

structure ValidateTokensResponse where
  validation_results : List (String × TokenValidation)
  summary : ValidateSummary
deriving DecidableEq

/-- The `for token in tokens` loop: returns
`(validation_results, valid_tokens, invalid_tokens)` in iteration order.
`validation_results` is the Python dict as an association list in insertion
order; a duplicate token writes the same entry again (the value depends
only on the token), so first-match lookup agrees with the dict. -/
def validateLoop (asl_dataset : List String) :
    List String → List (String × TokenValidation) × List String × List String
  | [] => ([], [], [])
  | token :: rest =>
    let token_upper := token.toUpper
    let prev := validateLoop asl_dataset rest
    if asl_dataset.contains token_upper then
      ((token, ⟨true, some token_upper⟩) :: prev.1, token_upper :: prev.2.1, prev.2.2)
    else
      ((token, ⟨false, none⟩) :: prev.1, prev.2.1, token :: prev.2.2)

/-- `validate_tokens`: run the loop and assemble the response. -/
def validate_tokens (asl_dataset : List String) (tokens : List String) :
    ValidateTokensResponse :=
  let r := validateLoop asl_dataset tokens
  { validation_results := r.1
    summary := { total_tokens := tokens.length
                 valid_count := r.2.1.length
                 invalid_count := r.2.2.length
                 valid_tokens := r.2.1
                 invalid_tokens := r.2.2 } }

/-! ### Theorems -/

/-- C2: for every input list of tokens, `valid_count + invalid_count =
total_tokens` and `total_tokens` equals the length of the input list. -/
theorem validate_tokens_partitions (asl_dataset tokens : List String) :
    (validate_tokens asl_dataset tokens).summary.valid_count
        + (validate_tokens asl_dataset tokens).summary.invalid_count
      = (validate_tokens asl_dataset tokens).summary.total_tokens
    ∧ (validate_tokens asl_dataset tokens).summary.total_tokens = tokens.length := by
  refine ⟨?_, rfl⟩
  show (validateLoop asl_dataset tokens).2.1.length
      + (validateLoop asl_dataset tokens).2.2.length = tokens.length
  induction tokens with
  | nil => rfl
  | cons t ts ih =>
      simp only [validateLoop, List.length_cons]
      split <;> simp only [List.length_cons] <;> omega

/-- C9: `/health` reports status `"warning"` exactly when the API key is
not configured and `"healthy"` otherwise, and always reports
`asl_dataset_size` equal to the length of the loaded dataset. -/
theorem health_check_status (env : Option String) (asl_dataset : List String) :
    ((health_check env asl_dataset).status = "warning" ↔ keyConfigured env = false)
    ∧ ((health_check env asl_dataset).status = "healthy" ↔ keyConfigured env = true)
    ∧ (health_check env asl_dataset).asl_dataset_size = asl_dataset.length := by
  cases h : keyConfigured env <;> simp [health_check, h]

/-- Unfolding the `/validate-tokens` loop by one input token. -/
theorem validateLoop_cons (asl_dataset : List String) (t : String) (ts : List String) :
    validateLoop asl_dataset (t :: ts) =
      if asl_dataset.contains t.toUpper then
        ((t, ⟨true, some t.toUpper⟩) :: (validateLoop asl_dataset ts).1,
          t.toUpper :: (validateLoop asl_dataset ts).2.1,
          (validateLoop asl_dataset ts).2.2)
      else
        ((t, ⟨false, none⟩) :: (validateLoop asl_dataset ts).1,
          (validateLoop asl_dataset ts).2.1,
          t :: (validateLoop asl_dataset ts).2.2) := rfl

/-- C3: every input token is uppercased before the vocabulary lookup: the
entry recorded for a token is valid exactly when its uppercased form is in
the dataset, `normalized` being the uppercased token then and `none`
otherwise. -/
theorem validate_tokens_normalizes (asl_dataset tokens : List String) (t : String)
    (ht : t ∈ tokens) :
    (validate_tokens asl_dataset tokens).validation_results.lookup t =
      some ⟨asl_dataset.contains t.toUpper,
        if asl_dataset.contains t.toUpper then some t.toUpper else none⟩ := by
  show (validateLoop asl_dataset tokens).1.lookup t = _
  induction tokens with
  | nil => cases ht
  | cons a ts ih =>
    by_cases hta : t = a
    · subst hta
      by_cases hc : asl_dataset.contains t.toUpper = true
      · rw [validateLoop_cons, if_pos hc, hc]
        simp [List.lookup_cons]
      · have hc' : asl_dataset.contains t.toUpper = false := Bool.eq_false_iff.mpr hc
        rw [validateLoop_cons, if_neg hc, hc']
        simp [List.lookup_cons]
    · have hts : t ∈ ts := (List.mem_cons.mp ht).resolve_left hta
      have hne : (t == a) = false := beq_eq_false_iff_ne.mpr hta
      by_cases hc : asl_dataset.contains a.toUpper = true
      · rw [validateLoop_cons, if_pos hc]
        simp only [List.lookup_cons, hne]
        exact ih hts
      · rw [validateLoop_cons, if_neg hc]
        simp only [List.lookup_cons, hne]
        exact ih hts

theorem validateLoop_valid_sound (asl_dataset : List String) (tokens : List String) :
    ∀ x ∈ (validateLoop asl_dataset tokens).2.1,
      x ∈ asl_dataset ∧ ∃ t ∈ tokens, x = t.toUpper := by
  induction tokens with
  | nil => intro x hx; cases hx
  | cons a ts ih =>
    intro x hx
    by_cases hc : asl_dataset.contains a.toUpper = true
    · rw [validateLoop_cons, if_pos hc] at hx
      rcases List.mem_cons.mp hx with rfl | hx'
      · exact ⟨List.mem_of_elem_eq_true hc, a, List.mem_cons_self a ts, rfl⟩
      · obtain ⟨hxds, u, hu, hxu⟩ := ih x hx'
        exact ⟨hxds, u, List.mem_cons_of_mem a hu, hxu⟩
    · rw [validateLoop_cons, if_neg hc] at hx
      obtain ⟨hxds, u, hu, hxu⟩ := ih x hx
      exact ⟨hxds, u, List.mem_cons_of_mem a hu, hxu⟩

theorem validateLoop_invalid_sound (asl_dataset : List String) (tokens : List String) :
    ∀ x ∈ (validateLoop asl_dataset tokens).2.2, x ∈ tokens := by
  induction tokens with
  | nil => intro x hx; cases hx
  | cons a ts ih =>
    intro x hx
    by_cases hc : asl_dataset.contains a.toUpper = true
    · rw [validateLoop_cons, if_pos hc] at hx
      exact List.mem_cons_of_mem a (ih x hx)
    · rw [validateLoop_cons, if_neg hc] at hx
      rcases List.mem_cons.mp hx with rfl | hx'
      · exact List.mem_cons_self x ts
      · exact List.mem_cons_of_mem a (ih x hx')

/-- C10: every reported valid token is the uppercased form of an input
token and belongs to the dataset; every reported invalid token is an input
token kept in its original casing. -/
theorem validate_tokens_classification (asl_dataset tokens : List String) :
    (∀ x ∈ (validate_tokens asl_dataset tokens).summary.valid_tokens,
        x ∈ asl_dataset ∧ ∃ t ∈ tokens, x = t.toUpper)
    ∧ (∀ x ∈ (validate_tokens asl_dataset tokens).summary.invalid_tokens, x ∈ tokens) :=
  ⟨validateLoop_valid_sound asl_dataset tokens, validateLoop_invalid_sound asl_dataset tokens⟩

/-- In an association list whose keys are pairwise distinct (a Python
dict), looking up the key of one of its entries finds that entry's value. -/
theorem lookup_of_nodup_keys {raw : List (String × String)}
    (hnd : (raw.map Prod.fst).Nodup) {kv : String × String} (hkv : kv ∈ raw) :
    raw.lookup kv.1 = some kv.2 := by
  induction raw with
  | nil => cases hkv
  | cons a rest ih =>
    obtain ⟨k, v⟩ := a
    rw [List.map_cons, List.nodup_cons] at hnd
    rcases List.mem_cons.mp hkv with rfl | hkv'
    · simp [List.lookup_cons]
    · have hne : (kv.1 == k) = false := by
        refine beq_eq_false_iff_ne.mpr ?_
        intro h
        have hmem : kv.1 ∈ rest.map Prod.fst := List.mem_map_of_mem Prod.fst hkv'
        rw [h] at hmem
        exact hnd.1 hmem
      simp only [List.lookup_cons, hne]
      exact ih hnd.2 hkv'

/-- C4: the vocabulary loader builds a flat list with one uppercased value
per key of the raw JSON object, so its length is the number of keys and
every element is an uppercased value of the raw mapping. -/
theorem buildAslDataset_spec (raw : List (String × String))
    (hnd : (raw.map Prod.fst).Nodup) :
    (buildAslDataset raw).length = raw.length
    ∧ ∀ x ∈ buildAslDataset raw, ∃ kv ∈ raw, x = kv.2.toUpper := by
  constructor
  · simp [buildAslDataset]
  · intro x hx
    simp only [buildAslDataset, List.mem_map] at hx
    obtain ⟨word, hword, hxw⟩ := hx
    obtain ⟨kv, hkv, hfst⟩ := hword
    refine ⟨kv, hkv, ?_⟩
    rw [← hxw, ← hfst, lookup_of_nodup_keys hnd hkv]
    rfl

/-- C8: `/asl-dataset` reports the dataset's length and its first 20 words
as the sample; when the dataset has at most 20 words the sample is the
whole dataset. -/
theorem get_asl_dataset_spec (asl_dataset : List String) :
    (get_asl_dataset asl_dataset).total_words = asl_dataset.length
    ∧ (get_asl_dataset asl_dataset).sample_words = asl_dataset.take 20
    ∧ (asl_dataset.length ≤ 20 →
        (get_asl_dataset asl_dataset).sample_words = asl_dataset) :=
  ⟨rfl, rfl, fun h => List.take_of_length_le h⟩

/-- C6: with no API key configured, `/process-tokens` fails with HTTP 500
carrying a message string (the key-check 500 is re-wrapped by the blanket
`except Exception`, keeping status 500). -/
theorem process_tokens_no_key (env : Option String) (asl_dataset : List String)
    (crew : List String → List String → Except String String)
    (words : List String) (h : keyConfigured env = false) :
    process_tokens env asl_dataset crew words =
      Except.error ⟨500,
        "Error processing tokens: 500: OPENAI_API_KEY not configured. Please set it in your environment or .env file."⟩ := by
  simp [process_tokens, processTokensTryBlock, pyExcStr, h]
  rfl

/-- C7: any exception raised by the crew pipeline is caught and surfaced
as HTTP 500 with a message derived from the exception's text; the crew is
invoked exactly once, with no retry. -/
theorem process_tokens_crew_exception (env : Option String) (asl_dataset : List String)
    (crew : List String → List String → Except String String) (words : List String)
    (msg : String) (hkey : keyConfigured env = true) (hwords : words ≠ [])
    (hcrew : crew words asl_dataset = Except.error msg) :
    process_tokens env asl_dataset crew words =
      Except.error ⟨500, "Error processing tokens: " ++ msg⟩ := by
  have hw : (words == []) = false := beq_eq_false_iff_ne.mpr hwords
  simp [process_tokens, processTokensTryBlock, pyExcStr, hkey, hw, hcrew]

/-- C1: with the key configured and an empty `words` list, the
`HTTPException(400)` raised inside the `try` block is caught by the
blanket `except Exception` (HTTPException subclasses Exception) and
re-raised as HTTP 500, so the endpoint answers status 500, not 400. -/
theorem process_tokens_empty_words_gives_500 :
    process_tokens (some "sk-test") ["HELLO"] (fun _ _ => Except.ok "r") [] =
      Except.error ⟨500, "Error processing tokens: 400: Words list cannot be empty"⟩ := by
  rfl

/-! ### Witnesses -/

/-- `String.toUpper` in terms of `List.map`, so that concrete instances
can be evaluated by `decide` (the underlying `String.mapAux` is defined by
well-founded recursion and does not reduce definitionally). -/
theorem string_toUpper_eq (s : String) : s.toUpper = ⟨s.data.map Char.toUpper⟩ :=
  String.map_eq Char.toUpper s

theorem toUpper_hello : "hello".toUpper = "HELLO" := by
  rw [string_toUpper_eq]
  decide

theorem toUpper_qq1 : "qq1".toUpper = "QQ1" := by
  rw [string_toUpper_eq]
  decide

theorem validateLoop_witness_eval :
    validateLoop ["HELLO"] ["hello", "qq1"] =
      ([("hello", ⟨true, some "HELLO"⟩), ("qq1", ⟨false, none⟩)], ["HELLO"], ["qq1"]) := by
  rw [validateLoop_cons, validateLoop_cons, toUpper_hello, toUpper_qq1]
  decide

theorem validate_tokens_normalizes_witness :
    (validate_tokens ["HELLO"] ["hello"]).validation_results.lookup "hello" =
      some ⟨true, some "HELLO"⟩ := by
  have h := validate_tokens_normalizes ["HELLO"] ["hello"] "hello" (List.mem_singleton.mpr rfl)
  rw [h, toUpper_hello]
  decide

theorem validate_tokens_classification_witness :
    ("HELLO" ∈ ["HELLO"] ∧ ∃ t ∈ ["hello", "qq1"], "HELLO" = t.toUpper)
    ∧ "qq1" ∈ ["hello", "qq1"] := by
  refine ⟨(validate_tokens_classification ["HELLO"] ["hello", "qq1"]).1 "HELLO" ?_,
          (validate_tokens_classification ["HELLO"] ["hello", "qq1"]).2 "qq1" ?_⟩
  · show "HELLO" ∈ (validateLoop ["HELLO"] ["hello", "qq1"]).2.1
    rw [validateLoop_witness_eval]
    decide
  · show "qq1" ∈ (validateLoop ["HELLO"] ["hello", "qq1"]).2.2
    rw [validateLoop_witness_eval]
    decide

theorem buildAslDataset_spec_witness :
    (buildAslDataset [("hello", "Hello"), ("you", "You")]).length = 2 :=
  (buildAslDataset_spec [("hello", "Hello"), ("you", "You")] (by decide)).1

theorem get_asl_dataset_spec_witness :
    (get_asl_dataset ["HELLO"]).sample_words = ["HELLO"] :=
  (get_asl_dataset_spec ["HELLO"]).2.2 (by decide)

theorem process_tokens_no_key_witness :
    process_tokens none ["HELLO"] (fun _ _ => Except.ok "r") ["YOU"] =
      Except.error ⟨500,
        "Error processing tokens: 500: OPENAI_API_KEY not configured. Please set it in your environment or .env file."⟩ :=
  process_tokens_no_key none ["HELLO"] (fun _ _ => Except.ok "r") ["YOU"] rfl

theorem process_tokens_crew_exception_witness :
    process_tokens (some "sk-test") ["HELLO"] (fun _ _ => Except.error "boom") ["YOU"] =
      Except.error ⟨500, "Error processing tokens: boom"⟩ :=
  process_tokens_crew_exception (some "sk-test") ["HELLO"]
    (fun _ _ => Except.error "boom") ["YOU"] "boom" rfl (by decide) rfl

/-- C5: when the dataset file is missing (the `open` raises
`FileNotFoundError`), startup fails with an error; in particular it does
not start with an empty vocabulary. -/
theorem loadAslDataset_missing_file :
    loadAslDataset none
        = Except.error "ASL dataset file not found at ./data/english_words.json"
    ∧ (loadAslDataset none).isOk = false := by
  exact ⟨rfl, rfl⟩

end SignGPT
